import Mathlib

/-!
Verification development for the blob-storage client and data-node bookkeeping
of this repository.  The Go source is shallowly embedded:

* Go strings are lists of characters (`GoStr`), byte slices are lists of
  naturals, `uint32`/`uint64` fields are naturals, `int64` fields are integers.
* Go `float64` values reached by the claims are idealised as exact rationals,
  except for the IEEE-754 special values produced by a zero divisor, which are
  kept explicitly (`GoFloat.nan`, `GoFloat.posInf`); `x - 1.0`, the only other
  float operation the claims touch, is exact on the carries involved.
* Network and pool effects are an explicit environment (`NetEnv`) of pure
  functions, and the client operations return their Go result together with a
  trace of the observable calls they made.
* Fallible Go functions returning `(T, error)` become `Except GoError T`;
  functions returning a bare `error` become `Option GoError`.

Functions of this repository that are only called here but defined outside the
given sources (the key codec, packet constructors, the partition wrapper and
the protocol opcodes) are modelled from the specification; each such
definition carries a doc comment starting with "Modelled from the spec:".
-/

/-- A Go string, as a list of characters. -/
abbrev GoStr := List Char

/-- Go error values produced by the embedded code: the three `syscall` errors
the blob client returns, `fmt.Errorf` messages, and `errors.Annotatef`
wrappers that attach a message to an underlying cause. -/
inductive GoError where
  | eio
  | einval
  | enomem
  | errorf (msg : String)
  | annotatef (msg : String) (cause : GoError)
  deriving DecidableEq

/-- The chain of underlying causes attached to an error by annotation;
a bare error carries none. -/
def GoError.causes : GoError → List GoError
  | .annotatef _ cause => cause :: GoError.causes cause
  | _ => []

/-- Whether an `Except` result is a success. -/
def exceptOk {ε α : Type} : Except ε α → Bool
  | .ok _ => true
  | .error _ => false

instance {ε α : Type} [DecidableEq ε] [DecidableEq α] : DecidableEq (Except ε α)
  | .error e, .error f =>
    if h : e = f then .isTrue (h ▸ rfl) else .isFalse (fun hh => h (Except.error.inj hh))
  | .error _, .ok _ => .isFalse Except.noConfusion
  | .ok _, .error _ => .isFalse Except.noConfusion
  | .ok a, .ok b =>
    if h : a = b then .isTrue (h ▸ rfl) else .isFalse (fun hh => h (Except.ok.inj hh))

/-- The CRC-32 generator polynomial (reflected form) used by
`hash/crc32.ChecksumIEEE`. -/
def crc32Poly : Nat := 0xEDB88320

/-- One bit step of the reflected CRC-32 computation. -/
def crc32Bit (crc : Nat) : Nat :=
  if crc % 2 = 1 then (crc / 2) ^^^ crc32Poly else crc / 2

/-- Iterate `crc32Bit` the given number of times. -/
def crc32Bits : Nat → Nat → Nat
  | 0, crc => crc
  | k + 1, crc => crc32Bits k (crc32Bit crc)

/-- Embeds `crc32.ChecksumIEEE` from Go's standard library: the reflected
CRC-32 with the IEEE polynomial, initial value and final xor `0xFFFFFFFF`,
eight bit-steps per input byte. -/
def crc32 (data : List Nat) : Nat :=
  (data.foldl (fun crc b => crc32Bits 8 (crc ^^^ b % 256)) 0xFFFFFFFF) ^^^ 0xFFFFFFFF

/-- Modelled from the spec: the wire protocol's success sentinel opcode
(`proto.OpOk`, a fixed well-known value defined outside src/). -/
def OpOk : Nat := 0xF0

/-- Modelled from the spec: the write request opcode (defined outside src/;
its exact value is irrelevant to the claims). -/
def OpWrite : Nat := 3

/-- Modelled from the spec: the read request opcode (defined outside src/). -/
def OpRead : Nat := 4

/-- Modelled from the spec: the delete request opcode (defined outside src/). -/
def OpDelete : Nat := 5

/-- The wire packet (`proto.Packet`) fields consumed by the blob client:
opcode, request id, partition id, file id, offset (the object id), CRC, size
and payload. -/
structure Packet where
  Opcode : Nat
  ReqID : Int
  PartitionID : Nat
  FileID : Nat
  Offset : Nat
  Crc : Nat
  Size : Nat
  Data : List Nat
  deriving DecidableEq

/-- A data partition as the blob client sees it: its id and the ordered list
of replica host addresses (`wrapper.DataPartition`). -/
structure DataPartition where
  PartitionID : Nat
  Hosts : List GoStr
  deriving DecidableEq

/-- Embeds `checkWriteResponse` from src/sdk/data/blob/blob.go: the reply is
rejected if its opcode is not `OpOk`, if its request id or partition id
differs from the request's, or if the CRC-32 of the request payload
`Data[:Size]` differs from the reply's reported CRC; otherwise it is
accepted (`none`). -/
def checkWriteResponse (request reply : Packet) : Option GoError :=
  if reply.Opcode ≠ OpOk then some (.errorf "replyOp Err")
  else if request.ReqID ≠ reply.ReqID then some (.errorf "REQID not equare")
  else if request.PartitionID ≠ reply.PartitionID then some (.errorf "PartitionID not equare")
  else if crc32 (request.Data.take request.Size) ≠ reply.Crc then some (.errorf "CRC not equare")
  else none

/-- Embeds `checkReadResponse` from src/sdk/data/blob/blob.go: like the write
variant, but the CRC condition validates the reply's own payload
`Data[:Size]` against the reply's reported CRC. -/
def checkReadResponse (request reply : Packet) : Option GoError :=
  if reply.Opcode ≠ OpOk then some (.errorf "replyOp Err")
  else if request.ReqID ≠ reply.ReqID then some (.errorf "REQID not equare")
  else if request.PartitionID ≠ reply.PartitionID then some (.errorf "PartitionID not equare")
  else if crc32 (reply.Data.take reply.Size) ≠ reply.Crc then some (.errorf "CRC not equare")
  else none

/-- The character code of a decimal digit. -/
def digitToChar (d : Nat) : Char := Char.ofNat (48 + d)

/-- The numeric value of a decimal digit character. -/
def charToDigit (c : Char) : Nat := c.toNat - 48

/-- Whether a character is a decimal digit. -/
def isDigitCh (c : Char) : Bool := 48 ≤ c.toNat && c.toNat ≤ 57

/-- Decimal digits of a positive natural, most significant first; the first
argument is recursion fuel (any fuel at least the number itself suffices). -/
def natCharsAux : Nat → Nat → List Char
  | 0, _ => []
  | _ + 1, 0 => []
  | fuel + 1, n + 1 => natCharsAux fuel ((n + 1) / 10) ++ [digitToChar ((n + 1) % 10)]

/-- Decimal rendering of a natural number (as `strconv` renders it,
`0` rendering as "0"). -/
def natToChars (n : Nat) : List Char :=
  if n = 0 then ['0'] else natCharsAux n n

/-- Strict decimal parsing: succeeds exactly on nonempty all-digit strings. -/
def parseNat (s : List Char) : Option Nat :=
  if s = [] then none
  else if s.all isDigitCh then some (s.foldl (fun a c => a * 10 + charToDigit c) 0)
  else none

/-- Split a character list on a separator; like Go's `strings.Split`, the
result always has one more part than there are separators. -/
def splitSep (sep : Char) : List Char → List (List Char)
  | [] => [[]]
  | c :: rest =>
    if c = sep then [] :: splitSep sep rest
    else
      match splitSep sep rest with
      | [] => [[c]]
      | h :: t => (c :: h) :: t

/-- Modelled from the spec: `GenKey` (defined outside src/) encodes the tuple
`(cluster, volume, partitionID, fileID, objectID, size)` as a stable
separator-joined string; the separator is an implementation choice, fixed
here as an underscore, so the valid input domain is separator-free cluster
and volume names. -/
def GenKey (cluster volname : GoStr) (pid fid oid sz : Nat) : GoStr :=
  cluster ++ ('_' :: (volname ++ ('_' :: (natToChars pid ++
    ('_' :: (natToChars fid ++ ('_' :: (natToChars oid ++ ('_' :: natToChars sz)))))))))

/-- Modelled from the spec: `ParseKey` (defined outside src/), the inverse of
`GenKey`; a string that does not split into exactly six parts with numeric
trailing four fails with an invalid-argument error rather than a partial
result. -/
def ParseKey (key : GoStr) : Except GoError (GoStr × GoStr × Nat × Nat × Nat × Nat) :=
  match splitSep '_' key with
  | [c, v, a, b, o, s] =>
    match parseNat a, parseNat b, parseNat o, parseNat s with
    | some pa, some pb, some po, some ps => Except.ok (c, v, pa, pb, po, ps)
    | _, _, _, _ => Except.error GoError.einval
  | _ => Except.error GoError.einval

/-- The blob client's own state from src/sdk/data/blob/blob.go; the connection
pool and partition wrapper it holds are modelled as the explicit `NetEnv`
passed to each operation. -/
structure BlobClient where
  cluster : GoStr
  volname : GoStr
  deriving DecidableEq

/-- Embeds `NewBlobClient` from src/sdk/data/blob/blob.go: `new(BlobClient)`
zero-values every field, and only `volname` (and the pool/wrapper handles)
are then assigned, so `cluster` keeps Go's zero value, the empty string. -/
def NewBlobClient (volname : GoStr) : BlobClient :=
  { cluster := [], volname := volname }

/-- The external world the blob client calls into: the partition wrapper
(scheduler and locator), the connection pool's `Get`, and the transport's
send/receive, all as pure functions.  `getWriteDataPartition` receives the
exclusion list; `getDataPartition`, modelled from the spec, fails with a
not-found error exactly when the partition id is unresolvable.  Connections
are identified by naturals. -/
structure NetEnv where
  getWriteDataPartition : List Nat → Except GoError DataPartition
  getDataPartition : Nat → Except GoError DataPartition
  connGet : GoStr → Except GoError Nat
  send : Nat → Packet → Option GoError
  recv : Nat → Except GoError Packet

/-- Modelled from the spec: `NewBlobWritePacket` (defined outside src/)
builds the write request packet carrying the payload and its CRC-32, stamped
with the given partition's id and the request id.  The source passes the
still-nil partition pointer here, modelled as `none`; the partition id field
then keeps the zero value 0. -/
def NewBlobWritePacket (dp : Option DataPartition) (reqID : Int) (data : List Nat) : Packet :=
  { Opcode := OpWrite, ReqID := reqID,
    PartitionID := (dp.map DataPartition.PartitionID).getD 0,
    FileID := 0, Offset := 0,
    Crc := crc32 data, Size := data.length, Data := data }

/-- Modelled from the spec: `NewBlobReadPacket` (defined outside src/) builds
the read request for `(fileID, objectID, size)` on the given partition. -/
def NewBlobReadPacket (reqID : Int) (pid fid oid sz : Nat) : Packet :=
  { Opcode := OpRead, ReqID := reqID, PartitionID := pid, FileID := fid,
    Offset := oid, Crc := 0, Size := sz, Data := [] }

/-- Modelled from the spec: `NewBlobDeletePacket` (defined outside src/)
builds the delete request for `(fileID, objectID)` on the given partition. -/
def NewBlobDeletePacket (dp : DataPartition) (reqID : Int) (fid oid : Nat) : Packet :=
  { Opcode := OpDelete, ReqID := reqID, PartitionID := dp.PartitionID, FileID := fid,
    Offset := oid, Crc := 0, Size := 0, Data := [] }

/-- Modelled from the spec: `ParsePacket` (defined outside src/) decodes
`(partitionID, fileID, objectID, size)` from the write response packet. -/
def ParsePacket (reply : Packet) : Nat × Nat × Nat × Nat :=
  (reply.PartitionID, reply.FileID, reply.Offset, reply.Size)

/-- `MaxRetryCnt` from src/sdk/data/blob/blob.go. -/
def MaxRetryCnt : Nat := 100

/-- One attempt of the write retry loop as recorded in the trace: the
exclusion list passed to the scheduler, the scheduler's answer, and whether
the attempt failed (took a `continue` path). -/
structure WriteAttempt where
  exclude : List Nat
  sched : Except GoError DataPartition
  failed : Bool
  deriving DecidableEq

/-- The body of `Write`'s retry loop from src/sdk/data/blob/blob.go, with the
loop counter as fuel.  Each iteration asks the scheduler with the current
exclusion list (a scheduler error returns ENOMEM at once); on a connection,
send, receive or response-validation failure the chosen partition id is
appended to the exclusion list and the loop continues; on success the reply
is decoded and the key returned; exhausting the fuel returns EIO.  The trace
records every scheduler consultation. -/
def writeLoop (env : NetEnv) (cluster volname : GoStr) (request : Packet) :
    List Nat → Nat → Except GoError GoStr × List WriteAttempt
  | _, 0 => (.error .eio, [])
  | exclude, fuel + 1 =>
    match env.getWriteDataPartition exclude with
    | .error e => (.error .enomem, [⟨exclude, .error e, true⟩])
    | .ok dp =>
      match env.connGet (dp.Hosts.headD []) with
      | .error _ =>
        match writeLoop env cluster volname request (exclude ++ [dp.PartitionID]) fuel with
        | (res, tr) => (res, ⟨exclude, .ok dp, true⟩ :: tr)
      | .ok conn =>
        match env.send conn request with
        | some _ =>
          match writeLoop env cluster volname request (exclude ++ [dp.PartitionID]) fuel with
          | (res, tr) => (res, ⟨exclude, .ok dp, true⟩ :: tr)
        | none =>
          match env.recv conn with
          | .error _ =>
            match writeLoop env cluster volname request (exclude ++ [dp.PartitionID]) fuel with
            | (res, tr) => (res, ⟨exclude, .ok dp, true⟩ :: tr)
          | .ok reply =>
            match checkWriteResponse request reply with
            | some _ =>
              match writeLoop env cluster volname request (exclude ++ [dp.PartitionID]) fuel with
              | (res, tr) => (res, ⟨exclude, .ok dp, true⟩ :: tr)
            | none =>
              match ParsePacket reply with
              | (pid, fid, oid, sz) =>
                (.ok (GenKey cluster volname pid fid oid sz), [⟨exclude, .ok dp, false⟩])

/-- Embeds `Write` from src/sdk/data/blob/blob.go.  As in the source, the
request packet is built once, before the loop, from the still-nil partition
pointer `dp` (`NewBlobWritePacket none`); the loop then runs at most
`MaxRetryCnt` times starting from an empty exclusion list. -/
def BlobClient.Write (client : BlobClient) (env : NetEnv) (reqID : Int) (data : List Nat) :
    Except GoError GoStr × List WriteAttempt :=
  writeLoop env client.cluster client.volname (NewBlobWritePacket none reqID data) [] MaxRetryCnt

/-- The observable outcome of trying one replica in `Read`: `some` payload
when the connection, send, receive and response validation all succeed,
`none` on any failure. -/
def replicaResult (env : NetEnv) (request : Packet) (target : GoStr) : Option (List Nat) :=
  match env.connGet target with
  | .error _ => none
  | .ok conn =>
    match env.send conn request with
    | some _ => none
    | none =>
      match env.recv conn with
      | .error _ => none
      | .ok reply =>
        match checkReadResponse request reply with
        | some _ => none
        | none => some reply.Data

/-- The replica iteration of `Read` from src/sdk/data/blob/blob.go: hosts are
tried in listed order; any connection, send, receive or validation failure
annotates the (subsequently discarded) error and falls through to the next
replica; the first validated reply's payload is returned; an exhausted host
list returns the bare EIO. -/
def readLoop (env : NetEnv) (request : Packet) : List GoStr → Except GoError (List Nat)
  | [] => .error .eio
  | target :: rest =>
    match env.connGet target with
    | .error _ => readLoop env request rest
    | .ok conn =>
      match env.send conn request with
      | some _ => readLoop env request rest
      | none =>
        match env.recv conn with
        | .error _ => readLoop env request rest
        | .ok reply =>
          match checkReadResponse request reply with
          | some _ => readLoop env request rest
          | none => .ok reply.Data

/-- Embeds `Read` from src/sdk/data/blob/blob.go: parse the key and check the
embedded cluster and volume against the client's own (EINVAL on any
mismatch or parse error, before any network call); resolve the partition
(propagating the locator's error when it is unresolvable); then iterate the
replica hosts. -/
def BlobClient.Read (client : BlobClient) (env : NetEnv) (reqID : Int) (key : GoStr) :
    Except GoError (List Nat) :=
  match ParseKey key with
  | .error _ => .error .einval
  | .ok (cluster, volname, pid, fid, oid, sz) =>
    if cluster ≠ client.cluster ∨ volname ≠ client.volname then .error .einval
    else
      match env.getDataPartition pid with
      | .error e => .error e
      | .ok dp => readLoop env (NewBlobReadPacket reqID pid fid oid sz) dp.Hosts

/-- Connection-pool events observable in an operation's trace: a successful
acquisition, a `Put` (whose connection is `none` when the source passes the
nil connection of a failed `Get`, and whose flag is the force-close tag), and
a `CheckErrorForPutConnect` call. -/
inductive ConnEvent where
  | got (conn : Nat)
  | put (conn : Option Nat) (forceClose : Bool)
  | checkErrorPut (conn : Nat)
  deriving DecidableEq

/-- Embeds `Delete` from src/sdk/data/blob/blob.go, recording the pool events
of each path.  Note the non-OK-opcode path of the source returns before the
final `Put`, so its event list contains the acquisition but no release. -/
def BlobClient.Delete (client : BlobClient) (env : NetEnv) (reqID : Int) (key : GoStr) :
    Option GoError × List ConnEvent :=
  match ParseKey key with
  | .error _ => (some .einval, [])
  | .ok (cluster, volname, pid, fid, oid, _) =>
    if cluster ≠ client.cluster ∨ volname ≠ client.volname then (some .einval, [])
    else
      match env.getDataPartition pid with
      | .error e => (some e, [])
      | .ok dp =>
        match env.connGet (dp.Hosts.headD []) with
        | .error e => (some (.annotatef "DeleteRequest Get connect" e), [.put none true])
        | .ok conn =>
          match env.send conn (NewBlobDeletePacket dp reqID fid oid) with
          | some e =>
            (some (.annotatef "DeleteRequest Write To host" e), [.got conn, .checkErrorPut conn])
          | none =>
            match env.recv conn with
            | .error e =>
              (some (.annotatef "DeleteRequest readResponse" e), [.got conn, .put (some conn) true])
            | .ok reply =>
              if reply.Opcode ≠ OpOk then (some (.errorf "replyOp Err"), [.got conn])
              else (none, [.got conn, .put (some conn) false])

/-- Go `float64` values reached by the data-node claims: exact rationals for
finite values, plus the IEEE-754 special values a zero divisor produces. -/
inductive GoFloat where
  | finite (q : ℚ)
  | posInf
  | nan
  deriving DecidableEq

/-- Go's `float64(a) / float64(b)` on naturals: NaN for 0/0, +Inf for a
positive numerator over zero, and the exact quotient otherwise. -/
def goDivNat (a b : Nat) : GoFloat :=
  if b = 0 then (if a = 0 then GoFloat.nan else GoFloat.posInf)
  else GoFloat.finite ((a : ℚ) / (b : ℚ))

/-- Go's `x - 1.0` on a float: exact on finite values, and absorbing on the
special values (`+Inf - 1 = +Inf`, `NaN - 1 = NaN`). -/
def gfSubOne : GoFloat → GoFloat
  | .finite q => .finite (q - 1)
  | .posInf => .posInf
  | .nan => .nan

/-- One partition health report (`proto.PartitionReport`): partition id and
disk path. -/
structure PartitionReport where
  PartitionID : Nat
  DiskPath : GoStr
  deriving DecidableEq

/-- The `DataNode` state from the master package source.  `ReportTime` is in
seconds; the admin-task `Sender` (an external collaborator whose identity
never changes) is omitted.  `Total`, `Used`, `Available`, `SelectCount` are
the source's `uint64` fields as naturals (no claim exercises wraparound). -/
structure DataNode where
  Total : Nat
  Used : Nat
  Available : Nat
  ID : Nat
  RackName : GoStr
  Addr : GoStr
  ReportTime : Int
  isActive : Bool
  Ratio : GoFloat
  SelectCount : Nat
  Carry : GoFloat
  dataPartitionReports : List PartitionReport
  DataPartitionCount : Nat
  NodeSetID : Nat
  deriving DecidableEq

/-- Embeds `checkLiveness` from the master package source: if `now` minus the
last report time strictly exceeds the timeout, `isActive` is set false;
otherwise the node is left unchanged. -/
def checkLiveness (timeoutSec now : Int) (n : DataNode) : DataNode :=
  if now - n.ReportTime > timeoutSec then { n with isActive := false } else n

/-- The heartbeat response (`proto.DataNodeHeartBeatResponse`) fields the
metric update consumes. -/
structure DataNodeHeartBeatResponse where
  Total : Nat
  Used : Nat
  Available : Nat
  RackName : GoStr
  CreatedPartitionCnt : Nat
  PartitionReports : List PartitionReport
  deriving DecidableEq

/-- Embeds `updateNodeMetric` from the master package source: overwrite the
capacity fields, rack name, partition count and report list; recompute
`Ratio` (0.0 when the new total is zero); set `ReportTime` to now and
`isActive` to true. -/
def updateNodeMetric (resp : DataNodeHeartBeatResponse) (now : Int) (n : DataNode) : DataNode :=
  { n with
    Total := resp.Total
    Used := resp.Used
    Available := resp.Available
    RackName := resp.RackName
    DataPartitionCount := resp.CreatedPartitionCnt
    dataPartitionReports := resp.PartitionReports
    Ratio := if resp.Total = 0 then GoFloat.finite 0
             else GoFloat.finite ((resp.Used : ℚ) / (resp.Total : ℚ))
    ReportTime := now
    isActive := true }

/-- Embeds `SetCarry` from the master package source. -/
def SetCarry (carry : GoFloat) (n : DataNode) : DataNode :=
  { n with Carry := carry }

/-- Embeds `SelectNodeForWrite` from the master package source: recompute
`Ratio` as `float64(Used) / float64(Total)` (with no zero-total guard),
increment `SelectCount`, and decrement `Carry` by 1.0. -/
def SelectNodeForWrite (n : DataNode) : DataNode :=
  { n with
    Ratio := goDivNat n.Used n.Total
    SelectCount := n.SelectCount + 1
    Carry := gfSubOne n.Carry }

/-- The state-mutating operations on a `DataNode` offered by the master
package source. -/
inductive NodeOp where
  | liveness (timeoutSec now : Int)
  | metricUpdate (resp : DataNodeHeartBeatResponse) (now : Int)
  | setCarry (carry : GoFloat)
  | selectForWrite

/-- Apply one node operation. -/
def applyOp : NodeOp → DataNode → DataNode
  | .liveness t now, n => checkLiveness t now n
  | .metricUpdate resp now, n => updateNodeMetric resp now n
  | .setCarry c, n => SetCarry c n
  | .selectForWrite, n => SelectNodeForWrite n

/-! Concrete fixtures used by counterexamples and witnesses. -/

/-- A node whose heartbeat reported zero total capacity. -/
def nodeZeroTotal : DataNode :=
  { Total := 0, Used := 0, Available := 0, ID := 1, RackName := [], Addr := [],
    ReportTime := 0, isActive := true, Ratio := GoFloat.finite 0, SelectCount := 0,
    Carry := GoFloat.finite 2, dataPartitionReports := [], DataPartitionCount := 0,
    NodeSetID := 0 }

/-- A healthy node: 2 bytes total, 1 used, carry 3/2. -/
def nodeTwoOne : DataNode :=
  { Total := 2, Used := 1, Available := 1, ID := 2, RackName := [], Addr := [],
    ReportTime := 0, isActive := true, Ratio := GoFloat.finite 0, SelectCount := 4,
    Carry := GoFloat.finite (3 / 2), dataPartitionReports := [], DataPartitionCount := 0,
    NodeSetID := 0 }

/-- An active node that last reported at time 0. -/
def nodeActive : DataNode :=
  { Total := 1, Used := 0, Available := 1, ID := 3, RackName := [], Addr := [],
    ReportTime := 0, isActive := true, Ratio := GoFloat.finite 0, SelectCount := 0,
    Carry := GoFloat.finite 0, dataPartitionReports := [], DataPartitionCount := 0,
    NodeSetID := 0 }

/-- An inactive node. -/
def nodeInactive : DataNode :=
  { Total := 1, Used := 0, Available := 1, ID := 4, RackName := [], Addr := [],
    ReportTime := 0, isActive := false, Ratio := GoFloat.finite 0, SelectCount := 0,
    Carry := GoFloat.finite 0, dataPartitionReports := [], DataPartitionCount := 0,
    NodeSetID := 0 }

/-- A heartbeat response. -/
def respZero : DataNodeHeartBeatResponse :=
  { Total := 10, Used := 5, Available := 5, RackName := [], CreatedPartitionCnt := 0,
    PartitionReports := [] }

/-- A reply faithfully echoing partition 7 for write request id 9 with payload
`[5]`. -/
def replyC3 : Packet :=
  { Opcode := OpOk, ReqID := 9, PartitionID := 7, FileID := 3, Offset := 4,
    Crc := crc32 [5], Size := 1, Data := [5] }

/-- An environment whose scheduler always grants partition 7 and whose server
behaves perfectly, echoing the true partition id. -/
def envC3 : NetEnv :=
  { getWriteDataPartition := fun _ => .ok { PartitionID := 7, Hosts := [['h']] }
    getDataPartition := fun _ => .error .einval
    connGet := fun _ => .ok 1
    send := fun _ _ => none
    recv := fun _ => .ok replyC3 }

/-- An environment whose scheduler always grants partition 7 but every send
fails at the transport. -/
def envWA : NetEnv :=
  { getWriteDataPartition := fun _ => .ok { PartitionID := 7, Hosts := [['h']] }
    getDataPartition := fun _ => .error .einval
    connGet := fun _ => .ok 1
    send := fun _ _ => some (.errorf "conn reset")
    recv := fun _ => .error .eio }

/-- An environment whose scheduler honours the exclusion list (it has only
partition 7 to offer) while every send fails. -/
def envWB : NetEnv :=
  { getWriteDataPartition := fun ex =>
      if 7 ∈ ex then .error (.errorf "no writable partition")
      else .ok { PartitionID := 7, Hosts := [['h']] }
    getDataPartition := fun _ => .error .einval
    connGet := fun _ => .ok 1
    send := fun _ _ => some (.errorf "conn reset")
    recv := fun _ => .error .eio }

/-- A key for partition 9 in the empty cluster, volume "v". -/
def keyNF : GoStr := GenKey [] ['v'] 9 1 2 3

/-- An environment whose partition locator resolves nothing. -/
def envNF : NetEnv :=
  { getWriteDataPartition := fun _ => .error (.errorf "no partition")
    getDataPartition := fun _ => .error (.errorf "no partition")
    connGet := fun _ => .error .eio
    send := fun _ _ => some .eio
    recv := fun _ => .error .eio }

/-- A key for partition 2 in the empty cluster, volume "v". -/
def keyR : GoStr := GenKey [] ['v'] 2 3 4 1

/-- A reply whose reported CRC does not match its payload. -/
def replyBad : Packet :=
  { Opcode := OpOk, ReqID := 9, PartitionID := 2, FileID := 3, Offset := 4,
    Crc := 0, Size := 1, Data := [7] }

/-- A valid reply carrying payload `[42]`. -/
def replyGood : Packet :=
  { Opcode := OpOk, ReqID := 9, PartitionID := 2, FileID := 3, Offset := 4,
    Crc := crc32 [42], Size := 1, Data := [42] }

/-- A two-replica partition: replica "a" serves a CRC-corrupt reply, replica
"b" a valid one. -/
def envR : NetEnv :=
  { getWriteDataPartition := fun _ => .error .enomem
    getDataPartition := fun _ => .ok { PartitionID := 2, Hosts := [['a'], ['b']] }
    connGet := fun h => if h = ['a'] then .ok 1 else .ok 2
    send := fun _ _ => none
    recv := fun c => if c = 1 then .ok replyBad else .ok replyGood }

/-- A two-replica partition where replica "a" fails in transport and replica
"b" serves a CRC-corrupt reply: every replica fails, for distinct causes. -/
def envR2 : NetEnv :=
  { getWriteDataPartition := fun _ => .error .enomem
    getDataPartition := fun _ => .ok { PartitionID := 2, Hosts := [['a'], ['b']] }
    connGet := fun h => if h = ['a'] then .ok 1 else .ok 2
    send := fun _ _ => none
    recv := fun c =>
      if c = 1 then .error (.errorf "replica one transport fault") else .ok replyBad }

/-- A key for partition 2 in the empty cluster, volume "v". -/
def keyD : GoStr := GenKey [] ['v'] 2 3 4 5

/-- A delete reply with a non-success opcode. -/
def replyD : Packet :=
  { Opcode := 0, ReqID := 9, PartitionID := 2, FileID := 3, Offset := 4,
    Crc := 0, Size := 0, Data := [] }

/-- An environment whose delete target answers with a non-success opcode. -/
def envD : NetEnv :=
  { getWriteDataPartition := fun _ => .error .enomem
    getDataPartition := fun _ => .ok { PartitionID := 2, Hosts := [['h']] }
    connGet := fun _ => .ok 1
    send := fun _ _ => none
    recv := fun _ => .ok replyD }

/-- A key whose cluster component "c" is not the empty string. -/
def keyC10 : GoStr := GenKey ['c'] ['v'] 1 2 3 4

/-- A write reply for partition 0 (the zero value the stale request carries),
file 5, object 6, size 3, CRC of payload `[1,2,3]`. -/
def replyC10 : Packet :=
  { Opcode := OpOk, ReqID := 9, PartitionID := 0, FileID := 5, Offset := 6,
    Crc := crc32 [1, 2, 3], Size := 3, Data := [1, 2, 3] }

/-- An environment against which the (stale, partition-0) write request
nevertheless validates, so `Write` succeeds and returns a key. -/
def envC10w : NetEnv :=
  { getWriteDataPartition := fun _ => .ok { PartitionID := 0, Hosts := [['h']] }
    getDataPartition := fun _ => .error .einval
    connGet := fun _ => .ok 1
    send := fun _ _ => none
    recv := fun _ => .ok replyC10 }

/-! Decimal codec lemmas. -/

theorem charToDigit_digitToChar {d : Nat} (h : d < 10) :
    charToDigit (digitToChar d) = d := by
  interval_cases d <;> decide

theorem isDigitCh_digitToChar {d : Nat} (h : d < 10) :
    isDigitCh (digitToChar d) = true := by
  interval_cases d <;> decide

theorem digitToChar_ne_sep {d : Nat} (h : d < 10) : digitToChar d ≠ '_' := by
  interval_cases d <;> decide

theorem natCharsAux_mem {fuel n : Nat} {c : Char} (hc : c ∈ natCharsAux fuel n) :
    isDigitCh c = true ∧ c ≠ '_' := by
  induction fuel generalizing n with
  | zero => simp [natCharsAux] at hc
  | succ fuel ih =>
    cases n with
    | zero => simp [natCharsAux] at hc
    | succ m =>
      rw [natCharsAux] at hc
      rcases List.mem_append.1 hc with h | h
      · exact ih h
      · have hm : (m + 1) % 10 < 10 := Nat.mod_lt _ (by norm_num)
        simp only [List.mem_singleton] at h
        subst h
        exact ⟨isDigitCh_digitToChar hm, digitToChar_ne_sep hm⟩

theorem natCharsAux_foldl {fuel : Nat} : ∀ {n : Nat}, n ≤ fuel → ∀ acc : Nat,
    List.foldl (fun a c => a * 10 + charToDigit c) acc (natCharsAux fuel n)
      = acc * 10 ^ (natCharsAux fuel n).length + n := by
  induction fuel with
  | zero =>
    intro n hn acc
    interval_cases n
    simp [natCharsAux]
  | succ fuel ih =>
    intro n hn acc
    cases n with
    | zero => simp [natCharsAux]
    | succ m =>
      have hq : (m + 1) / 10 ≤ fuel := by
        have := Nat.div_lt_self (Nat.succ_pos m) (by norm_num : 1 < 10)
        omega
      have hm : (m + 1) % 10 < 10 := Nat.mod_lt _ (by norm_num)
      rw [natCharsAux, List.foldl_append, ih hq acc]
      simp only [List.foldl_cons, List.foldl_nil, List.length_append,
        List.length_singleton]
      rw [charToDigit_digitToChar hm]
      have hdm : 10 * ((m + 1) / 10) + (m + 1) % 10 = m + 1 := Nat.div_add_mod (m + 1) 10
      calc (acc * 10 ^ (natCharsAux fuel ((m + 1) / 10)).length + (m + 1) / 10) * 10
            + (m + 1) % 10
          = acc * (10 ^ (natCharsAux fuel ((m + 1) / 10)).length * 10)
            + (10 * ((m + 1) / 10) + (m + 1) % 10) := by ring
        _ = acc * 10 ^ ((natCharsAux fuel ((m + 1) / 10)).length + 1) + (m + 1) := by
            rw [hdm, pow_succ]

theorem natToChars_mem {n : Nat} {c : Char} (hc : c ∈ natToChars n) :
    isDigitCh c = true ∧ c ≠ '_' := by
  unfold natToChars at hc
  split at hc
  · simp only [List.mem_singleton] at hc
    subst hc
    exact ⟨by decide, by decide⟩
  · exact natCharsAux_mem hc

theorem natToChars_ne_nil (n : Nat) : natToChars n ≠ [] := by
  unfold natToChars
  split
  · simp
  · rename_i h
    cases n with
    | zero => exact absurd rfl h
    | succ m => rw [natCharsAux]; simp

theorem sep_not_mem_natToChars (n : Nat) : '_' ∉ natToChars n :=
  fun h => (natToChars_mem h).2 rfl

theorem parseNat_natToChars (n : Nat) : parseNat (natToChars n) = some n := by
  unfold parseNat
  rw [if_neg (natToChars_ne_nil n)]
  have hall : (natToChars n).all isDigitCh = true := by
    rw [List.all_eq_true]
    intro c hc
    exact (natToChars_mem hc).1
  rw [if_pos hall]
  congr 1
  unfold natToChars
  split
  · rename_i h; subst h; decide
  · rw [natCharsAux_foldl (le_refl n) 0]
    simp

/-! Separator-splitting lemmas. -/

theorem splitSep_not_mem {sep : Char} {l : List Char} (h : sep ∉ l) :
    splitSep sep l = [l] := by
  induction l with
  | nil => rfl
  | cons c rest ih =>
    have hc : c ≠ sep := fun e => h (e ▸ List.mem_cons_self c rest)
    have hr : sep ∉ rest := fun e => h (List.mem_cons_of_mem _ e)
    rw [splitSep, if_neg hc, ih hr]

theorem splitSep_append {sep : Char} {a : List Char} (b : List Char) (h : sep ∉ a) :
    splitSep sep (a ++ sep :: b) = a :: splitSep sep b := by
  induction a with
  | nil => simp [splitSep]
  | cons c rest ih =>
    have hc : c ≠ sep := fun e => h (e ▸ List.mem_cons_self c rest)
    have hr : sep ∉ rest := fun e => h (List.mem_cons_of_mem _ e)
    rw [List.cons_append, splitSep, if_neg hc, ih hr]

theorem splitSep_genKey (cl vol : GoStr) (p f o s : Nat)
    (hc : '_' ∉ cl) (hv : '_' ∉ vol) :
    splitSep '_' (GenKey cl vol p f o s)
      = [cl, vol, natToChars p, natToChars f, natToChars o, natToChars s] := by
  unfold GenKey
  rw [splitSep_append _ hc, splitSep_append _ hv,
    splitSep_append _ (sep_not_mem_natToChars p),
    splitSep_append _ (sep_not_mem_natToChars f),
    splitSep_append _ (sep_not_mem_natToChars o),
    splitSep_not_mem (sep_not_mem_natToChars s)]

/-- C6: for every valid tuple (cluster, volume, partitionID, fileID, objectID,
size) — validity being separator-free cluster and volume names — decoding the
string produced by encoding it yields back exactly the original tuple, and a
malformed string is rejected with the invalid-argument error EINVAL (the only
error `ParseKey` ever returns), never a partial result. -/
theorem genKey_parseKey_roundtrip :
    (∀ cl vol p f o s, '_' ∉ cl → '_' ∉ vol →
      ParseKey (GenKey cl vol p f o s) = Except.ok (cl, vol, p, f, o, s))
    ∧ (∀ k e, ParseKey k = Except.error e → e = GoError.einval) := by
  constructor
  · intro cl vol p f o s hc hv
    unfold ParseKey
    rw [splitSep_genKey cl vol p f o s hc hv]
    simp [parseNat_natToChars]
  · intro k e h
    unfold ParseKey at h
    split at h
    · split at h
      · exact absurd h (by simp)
      · simp only [Except.error.injEq] at h
        exact h.symm
    · simp only [Except.error.injEq] at h
      exact h.symm

/-- Witness for C6 at the tuple ("c", "v", 12, 34, 5, 6) and at the malformed
key "x". -/
theorem genKey_parseKey_roundtrip_witness :
    ParseKey (GenKey ['c'] ['v'] 12 34 5 6) = Except.ok (['c'], ['v'], 12, 34, 5, 6)
    ∧ GoError.einval = GoError.einval :=
  ⟨genKey_parseKey_roundtrip.1 ['c'] ['v'] 12 34 5 6 (by decide) (by decide),
   genKey_parseKey_roundtrip.2 ['x'] GoError.einval (by decide)⟩

/-- C2: checkWriteResponse accepts (returns no error) exactly when the reply
opcode is the success sentinel, the request ids match, the partition ids
match, and the CRC-32 (IEEE) of the request payload Data[:Size] equals the
reply's reported Crc; any mismatch yields an error. -/
theorem checkWriteResponse_accepts_iff (request reply : Packet) :
    checkWriteResponse request reply = none ↔
      (reply.Opcode = OpOk ∧ request.ReqID = reply.ReqID
        ∧ request.PartitionID = reply.PartitionID
        ∧ crc32 (request.Data.take request.Size) = reply.Crc) := by
  unfold checkWriteResponse
  split_ifs with h1 h2 h3 h4 <;> simp_all

/-- C1 (amended): a selection recomputes the chosen node's usage ratio as
usedBytes/totalBytes under Go float semantics — NaN when used = total = 0 and
+Inf when total = 0 < used, rather than 0.0 — increments selectCount by
exactly 1, decreases carry by exactly 1.0 from its pre-selection value, and
changes no other field of the node. -/
theorem selectNodeForWrite_effects (n : DataNode) :
    (SelectNodeForWrite n).Ratio = goDivNat n.Used n.Total
    ∧ (n.Total ≠ 0 →
        (SelectNodeForWrite n).Ratio = GoFloat.finite ((n.Used : ℚ) / (n.Total : ℚ)))
    ∧ (n.Total = 0 → n.Used = 0 → (SelectNodeForWrite n).Ratio = GoFloat.nan)
    ∧ (n.Total = 0 → n.Used ≠ 0 → (SelectNodeForWrite n).Ratio = GoFloat.posInf)
    ∧ (SelectNodeForWrite n).SelectCount = n.SelectCount + 1
    ∧ (∀ q, n.Carry = GoFloat.finite q → (SelectNodeForWrite n).Carry = GoFloat.finite (q - 1))
    ∧ (SelectNodeForWrite n).Total = n.Total
    ∧ (SelectNodeForWrite n).Used = n.Used
    ∧ (SelectNodeForWrite n).Available = n.Available
    ∧ (SelectNodeForWrite n).ID = n.ID
    ∧ (SelectNodeForWrite n).RackName = n.RackName
    ∧ (SelectNodeForWrite n).Addr = n.Addr
    ∧ (SelectNodeForWrite n).ReportTime = n.ReportTime
    ∧ (SelectNodeForWrite n).isActive = n.isActive
    ∧ (SelectNodeForWrite n).dataPartitionReports = n.dataPartitionReports
    ∧ (SelectNodeForWrite n).DataPartitionCount = n.DataPartitionCount
    ∧ (SelectNodeForWrite n).NodeSetID = n.NodeSetID := by
  refine ⟨rfl, ?_, ?_, ?_, rfl, ?_, rfl, rfl, rfl, rfl, rfl, rfl, rfl, rfl, rfl, rfl, rfl⟩
  · intro h
    simp [SelectNodeForWrite, goDivNat, h]
  · intro h1 h2
    simp [SelectNodeForWrite, goDivNat, h1, h2]
  · intro h1 h2
    simp [SelectNodeForWrite, goDivNat, h1, h2]
  · intro q hq
    simp [SelectNodeForWrite, gfSubOne, hq]

/-- Counterexample to C1 as stated: on a node whose reported total is 0,
selection recomputes the ratio as float64(0)/float64(0) = NaN, not 0.0. -/
theorem selectNodeForWrite_zeroTotal_cex :
    (SelectNodeForWrite nodeZeroTotal).Ratio = GoFloat.nan
    ∧ (SelectNodeForWrite nodeZeroTotal).Ratio ≠ GoFloat.finite 0 := by
  constructor
  · rfl
  · intro h
    exact GoFloat.noConfusion ((rfl : (SelectNodeForWrite nodeZeroTotal).Ratio = GoFloat.nan) ▸ h)

/-- Witness for C1's amended theorem at a node with total 2, used 1 and carry
3/2. -/
theorem selectNodeForWrite_effects_witness :
    (SelectNodeForWrite nodeTwoOne).Ratio
        = GoFloat.finite (((1 : Nat) : ℚ) / ((2 : Nat) : ℚ))
    ∧ (SelectNodeForWrite nodeTwoOne).Carry = GoFloat.finite ((3 : ℚ) / 2 - 1) :=
  ⟨(selectNodeForWrite_effects nodeTwoOne).2.1 (by decide),
   (selectNodeForWrite_effects nodeTwoOne).2.2.2.2.2.1 ((3 : ℚ) / 2) rfl⟩

/-- C8: a node's isActive flag transitions to false only via the liveness
check, which sets it false exactly when now minus lastReportTime strictly
exceeds the timeout regardless of prior state (and otherwise leaves the flag
as it was); it transitions to true only via a metric update, after which
isActive is always true. -/
theorem isActive_transition_discipline (n : DataNode) :
    (∀ op, n.isActive = true → (applyOp op n).isActive = false →
        ∃ t now, op = NodeOp.liveness t now ∧ now - n.ReportTime > t)
    ∧ (∀ t now, (checkLiveness t now n).isActive = false ↔
        (now - n.ReportTime > t ∨ n.isActive = false))
    ∧ (∀ op, n.isActive = false → (applyOp op n).isActive = true →
        ∃ resp now, op = NodeOp.metricUpdate resp now)
    ∧ (∀ resp now, (updateNodeMetric resp now n).isActive = true) := by
  refine ⟨?_, ?_, ?_, ?_⟩
  · intro op ha hf
    cases op with
    | liveness t now =>
      refine ⟨t, now, rfl, ?_⟩
      by_contra hle
      simp only [applyOp, checkLiveness, if_neg hle] at hf
      rw [ha] at hf
      exact Bool.noConfusion hf
    | metricUpdate resp now =>
      simp [applyOp, updateNodeMetric] at hf
    | setCarry c =>
      simp only [applyOp, SetCarry] at hf
      rw [ha] at hf
      exact Bool.noConfusion hf
    | selectForWrite =>
      simp only [applyOp, SelectNodeForWrite] at hf
      rw [ha] at hf
      exact Bool.noConfusion hf
  · intro t now
    unfold checkLiveness
    split_ifs with h
    · simp [h]
    · simp [h]
  · intro op hf ha
    cases op with
    | liveness t now =>
      exfalso
      simp only [applyOp, checkLiveness] at ha
      split_ifs at ha
      rw [hf] at ha
      exact Bool.noConfusion ha
    | metricUpdate resp now => exact ⟨resp, now, rfl⟩
    | setCarry c =>
      exfalso
      simp only [applyOp, SetCarry] at ha
      rw [hf] at ha
      exact Bool.noConfusion ha
    | selectForWrite =>
      exfalso
      simp only [applyOp, SelectNodeForWrite] at ha
      rw [hf] at ha
      exact Bool.noConfusion ha
  · intro resp now
    rfl

/-- Witness for C8: an active node timing out under the liveness check, and an
inactive node reactivated by a metric update. -/
theorem isActive_transition_discipline_witness :
    (∃ t now, NodeOp.liveness 10 100 = NodeOp.liveness t now
        ∧ now - nodeActive.ReportTime > t)
    ∧ (∃ resp now, NodeOp.metricUpdate respZero 5 = NodeOp.metricUpdate resp now) :=
  ⟨(isActive_transition_discipline nodeActive).1 (NodeOp.liveness 10 100) rfl (by decide),
   (isActive_transition_discipline nodeInactive).2.2.1
     (NodeOp.metricUpdate respZero 5) rfl (by decide)⟩

/-! Read-path lemmas. -/

theorem readLoop_cons (env : NetEnv) (request : Packet) (target : GoStr)
    (rest : List GoStr) :
    readLoop env request (target :: rest)
      = match replicaResult env request target with
        | some d => Except.ok d
        | none => readLoop env request rest := by
  cases hc : env.connGet target with
  | error e => simp [readLoop, replicaResult, hc]
  | ok conn =>
    cases hs : env.send conn request with
    | some e => simp [readLoop, replicaResult, hc, hs]
    | none =>
      cases hr : env.recv conn with
      | error e => simp [readLoop, replicaResult, hc, hs, hr]
      | ok reply =>
        cases hcr : checkReadResponse request reply with
        | some e => simp [readLoop, replicaResult, hc, hs, hr, hcr]
        | none => simp [readLoop, replicaResult, hc, hs, hr, hcr]

theorem readLoop_all_fail {env : NetEnv} {request : Packet} {hosts : List GoStr}
    (h : ∀ x ∈ hosts, replicaResult env request x = none) :
    readLoop env request hosts = Except.error GoError.eio := by
  induction hosts with
  | nil => rfl
  | cons t rest ih =>
    rw [readLoop_cons, h t (List.mem_cons_self t rest)]
    exact ih fun x hx => h x (List.mem_cons_of_mem _ hx)

theorem readLoop_first_success {env : NetEnv} {request : Packet}
    (pre : List GoStr) (h : GoStr) (post : List GoStr) (data : List Nat)
    (hpre : ∀ x ∈ pre, replicaResult env request x = none)
    (hh : replicaResult env request h = some data) :
    readLoop env request (pre ++ h :: post) = Except.ok data := by
  induction pre with
  | nil =>
    rw [List.nil_append, readLoop_cons, hh]
  | cons t rest ih =>
    rw [List.cons_append, readLoop_cons, hpre t (List.mem_cons_self t rest)]
    exact ih fun x hx => hpre x (List.mem_cons_of_mem _ hx)

theorem checkReadResponse_crc {request reply : Packet}
    (hcrc : crc32 (reply.Data.take reply.Size) ≠ reply.Crc) :
    checkReadResponse request reply ≠ none := by
  unfold checkReadResponse
  split_ifs <;> simp_all

theorem replicaResult_crc_reject {env : NetEnv} {request : Packet} {target : GoStr}
    {conn : Nat} {reply : Packet}
    (hc : env.connGet target = Except.ok conn)
    (hs : env.send conn request = none)
    (hr : env.recv conn = Except.ok reply)
    (hcrc : crc32 (reply.Data.take reply.Size) ≠ reply.Crc) :
    replicaResult env request target = none := by
  cases hcc : checkReadResponse request reply with
  | some e => simp [replicaResult, hc, hs, hr, hcc]
  | none => exact absurd hcc (checkReadResponse_crc hcrc)

theorem read_unfold (client : BlobClient) (env : NetEnv) (reqID : Int) (key : GoStr)
    (pid fid oid sz : Nat) (dp : DataPartition)
    (hk : ParseKey key = Except.ok (client.cluster, client.volname, pid, fid, oid, sz))
    (hdp : env.getDataPartition pid = Except.ok dp) :
    client.Read env reqID key
      = readLoop env (NewBlobReadPacket reqID pid fid oid sz) dp.Hosts := by
  unfold BlobClient.Read
  rw [hk]
  simp [hdp]

/-- C5 (amended): Read iterates the partition's replica hosts in listed order,
rejects any reply whose payload fails CRC-32 validation against the reply's
reported Crc (falling back to the next replica instead of returning corrupted
data), returns the payload of the first replica whose response validates, and
if every replica fails returns the bare I/O error EIO, which carries none of
the per-replica causes. -/
theorem read_replica_fallback (client : BlobClient) (env : NetEnv) (reqID : Int)
    (key : GoStr) (pid fid oid sz : Nat) (dp : DataPartition)
    (hk : ParseKey key = Except.ok (client.cluster, client.volname, pid, fid, oid, sz))
    (hdp : env.getDataPartition pid = Except.ok dp) :
    (∀ pre h post data, dp.Hosts = pre ++ h :: post →
        (∀ x ∈ pre, replicaResult env (NewBlobReadPacket reqID pid fid oid sz) x = none) →
        replicaResult env (NewBlobReadPacket reqID pid fid oid sz) h = some data →
        client.Read env reqID key = Except.ok data)
    ∧ ((∀ x ∈ dp.Hosts, replicaResult env (NewBlobReadPacket reqID pid fid oid sz) x = none) →
        client.Read env reqID key = Except.error GoError.eio
          ∧ GoError.causes GoError.eio = [])
    ∧ (∀ target conn reply, env.connGet target = Except.ok conn →
        env.send conn (NewBlobReadPacket reqID pid fid oid sz) = none →
        env.recv conn = Except.ok reply →
        crc32 (reply.Data.take reply.Size) ≠ reply.Crc →
        replicaResult env (NewBlobReadPacket reqID pid fid oid sz) target = none) := by
  have hread := read_unfold client env reqID key pid fid oid sz dp hk hdp
  refine ⟨?_, ?_, ?_⟩
  · intro pre h post data hsplit hpre hh
    rw [hread, hsplit]
    exact readLoop_first_success pre h post data hpre hh
  · intro hall
    exact ⟨hread.trans (readLoop_all_fail hall), rfl⟩
  · intro target conn reply hc hs hr hcrc
    exact replicaResult_crc_reject hc hs hr hcrc

/-- Counterexample to C5 as stated: both replicas fail, each with a distinct
recorded cause (a transport fault on replica one, a CRC mismatch on replica
two), yet Read returns the bare EIO, which aggregates no causes at all. -/
theorem read_error_aggregation_cex :
    (NewBlobClient ['v']).Read envR2 9 keyR = Except.error GoError.eio
    ∧ GoError.causes GoError.eio = []
    ∧ envR2.recv 1 = Except.error (GoError.errorf "replica one transport fault")
    ∧ crc32 (replyBad.Data.take replyBad.Size) ≠ replyBad.Crc := by
  refine ⟨by decide, rfl, rfl, by decide⟩

/-- Witness for C5's amended theorem: replica "a" serves a CRC-corrupt reply
and is rejected, replica "b" validates and its payload [42] is returned. -/
theorem read_replica_fallback_witness :
    (NewBlobClient ['v']).Read envR 9 keyR = Except.ok [42]
    ∧ replicaResult envR (NewBlobReadPacket 9 2 3 4 1) ['a'] = none :=
  ⟨(read_replica_fallback (NewBlobClient ['v']) envR 9 keyR 2 3 4 1
      { PartitionID := 2, Hosts := [['a'], ['b']] } (by decide) rfl).1
      [['a']] ['b'] [] [42] rfl (by decide) (by decide),
   (read_replica_fallback (NewBlobClient ['v']) envR 9 keyR 2 3 4 1
      { PartitionID := 2, Hosts := [['a'], ['b']] } (by decide) rfl).2.2
      ['a'] 1 replyBad rfl rfl rfl (by decide)⟩

/-- C9: a Read whose well-formed, identity-matching key names a partition the
locator cannot resolve fails with the locator's not-found error — a non-nil
error and no payload. -/
theorem read_partition_not_found (client : BlobClient) (env : NetEnv) (reqID : Int)
    (key : GoStr) (pid fid oid sz : Nat) (e : GoError)
    (hk : ParseKey key = Except.ok (client.cluster, client.volname, pid, fid, oid, sz))
    (he : env.getDataPartition pid = Except.error e) :
    client.Read env reqID key = Except.error e := by
  unfold BlobClient.Read
  rw [hk]
  simp [he]

/-- Witness for C9: a key for unresolvable partition 9 makes Read fail with
the locator's error. -/
theorem read_partition_not_found_witness :
    (NewBlobClient ['v']).Read envNF 9 keyNF
      = Except.error (GoError.errorf "no partition") :=
  read_partition_not_found (NewBlobClient ['v']) envNF 9 keyNF 9 1 2 3
    (GoError.errorf "no partition") (by decide) rfl

/-! Write-loop lemmas. -/

theorem writeLoop_succ_shape (env : NetEnv) (cl vol : GoStr) (req : Packet)
    (exclude : List Nat) (fuel : Nat) :
    (∃ e, env.getWriteDataPartition exclude = Except.error e ∧
        writeLoop env cl vol req exclude (fuel + 1)
          = (Except.error GoError.enomem, [⟨exclude, Except.error e, true⟩]))
    ∨ (∃ dp key, env.getWriteDataPartition exclude = Except.ok dp ∧
        (∃ p f o s, key = GenKey cl vol p f o s) ∧
        writeLoop env cl vol req exclude (fuel + 1)
          = (Except.ok key, [⟨exclude, Except.ok dp, false⟩]))
    ∨ (∃ dp, env.getWriteDataPartition exclude = Except.ok dp ∧
        writeLoop env cl vol req exclude (fuel + 1)
          = ((writeLoop env cl vol req (exclude ++ [dp.PartitionID]) fuel).1,
             ⟨exclude, Except.ok dp, true⟩
               :: (writeLoop env cl vol req (exclude ++ [dp.PartitionID]) fuel).2)) := by
  cases hs : env.getWriteDataPartition exclude with
  | error e => exact Or.inl ⟨e, rfl, by simp only [writeLoop, hs]⟩
  | ok dp =>
    cases hw : writeLoop env cl vol req (exclude ++ [dp.PartitionID]) fuel with
    | mk res tr =>
      cases hc : env.connGet (dp.Hosts.headD []) with
      | error e2 =>
        exact Or.inr (Or.inr ⟨dp, rfl, by simp only [writeLoop, hs, hc, hw]⟩)
      | ok conn =>
        cases hsend : env.send conn req with
        | some e2 =>
          exact Or.inr (Or.inr ⟨dp, rfl, by simp only [writeLoop, hs, hc, hsend, hw]⟩)
        | none =>
          cases hrecv : env.recv conn with
          | error e2 =>
            exact Or.inr (Or.inr ⟨dp, rfl,
              by simp only [writeLoop, hs, hc, hsend, hrecv, hw]⟩)
          | ok reply =>
            cases hcw : checkWriteResponse req reply with
            | some e2 =>
              exact Or.inr (Or.inr ⟨dp, rfl,
                by simp only [writeLoop, hs, hc, hsend, hrecv, hcw, hw]⟩)
            | none =>
              exact Or.inr (Or.inl ⟨dp,
                GenKey cl vol reply.PartitionID reply.FileID reply.Offset reply.Size, rfl,
                ⟨reply.PartitionID, reply.FileID, reply.Offset, reply.Size, rfl⟩,
                by simp only [writeLoop, hs, hc, hsend, hrecv, hcw, ParsePacket]⟩)

theorem writeLoop_trace_length (env : NetEnv) (cl vol : GoStr) (req : Packet) :
    ∀ fuel exclude, (writeLoop env cl vol req exclude fuel).2.length ≤ fuel := by
  intro fuel
  induction fuel with
  | zero => intro exclude; simp [writeLoop]
  | succ fuel ih =>
    intro exclude
    rcases writeLoop_succ_shape env cl vol req exclude fuel with
      ⟨e, hs, heq⟩ | ⟨dp, key, hs, hkey, heq⟩ | ⟨dp, hs, heq⟩
    · rw [heq]; simp
    · rw [heq]; simp
    · rw [heq]
      simp only [List.length_cons]
      exact Nat.succ_le_succ (ih _)

theorem writeLoop_exclude_mono (env : NetEnv) (cl vol : GoStr) (req : Packet) :
    ∀ fuel exclude r, r ∈ (writeLoop env cl vol req exclude fuel).2 →
      ∀ x ∈ exclude, x ∈ r.exclude := by
  intro fuel
  induction fuel with
  | zero => intro exclude r hr; simp [writeLoop] at hr
  | succ fuel ih =>
    intro exclude r hr x hx
    rcases writeLoop_succ_shape env cl vol req exclude fuel with
      ⟨e, hs, heq⟩ | ⟨dp, key, hs, hkey, heq⟩ | ⟨dp, hs, heq⟩
    · rw [heq] at hr
      simp only [List.mem_singleton] at hr
      subst hr
      exact hx
    · rw [heq] at hr
      simp only [List.mem_singleton] at hr
      subst hr
      exact hx
    · rw [heq] at hr
      rcases List.mem_cons.1 hr with h | h
      · subst h; exact hx
      · exact ih _ r h x (List.mem_append_left _ hx)

theorem writeLoop_sched_eq (env : NetEnv) (cl vol : GoStr) (req : Packet) :
    ∀ fuel exclude r, r ∈ (writeLoop env cl vol req exclude fuel).2 →
      r.sched = env.getWriteDataPartition r.exclude := by
  intro fuel
  induction fuel with
  | zero => intro exclude r hr; simp [writeLoop] at hr
  | succ fuel ih =>
    intro exclude r hr
    rcases writeLoop_succ_shape env cl vol req exclude fuel with
      ⟨e, hs, heq⟩ | ⟨dp, key, hs, hkey, heq⟩ | ⟨dp, hs, heq⟩
    · rw [heq] at hr
      simp only [List.mem_singleton] at hr
      subst hr
      exact hs.symm
    · rw [heq] at hr
      simp only [List.mem_singleton] at hr
      subst hr
      exact hs.symm
    · rw [heq] at hr
      rcases List.mem_cons.1 hr with h | h
      · subst h; exact hs.symm
      · exact ih _ r h

theorem writeLoop_pairwise (env : NetEnv) (cl vol : GoStr) (req : Packet) :
    ∀ fuel exclude,
      List.Pairwise (fun a b => ∀ dp, a.sched = Except.ok dp → a.failed = true →
        dp.PartitionID ∈ b.exclude) (writeLoop env cl vol req exclude fuel).2 := by
  intro fuel
  induction fuel with
  | zero => intro exclude; simp [writeLoop]
  | succ fuel ih =>
    intro exclude
    rcases writeLoop_succ_shape env cl vol req exclude fuel with
      ⟨e, hs, heq⟩ | ⟨dp, key, hs, hkey, heq⟩ | ⟨dp, hs, heq⟩
    · rw [heq]; simp
    · rw [heq]; simp
    · rw [heq]
      refine List.Pairwise.cons ?_ (ih _)
      intro b hb dp' hsched hfail
      have hdp : dp = dp' := Except.ok.inj hsched
      subst hdp
      exact writeLoop_exclude_mono env cl vol req fuel (exclude ++ [dp.PartitionID]) b hb
        dp.PartitionID (by simp)

theorem writeLoop_exhaust (env : NetEnv) (cl vol : GoStr) (req : Packet) :
    ∀ fuel exclude,
      ((writeLoop env cl vol req exclude fuel).2.length = fuel
        ∧ ∀ r ∈ (writeLoop env cl vol req exclude fuel).2,
            r.failed = true ∧ exceptOk r.sched = true)
      → (writeLoop env cl vol req exclude fuel).1 = Except.error GoError.eio := by
  intro fuel
  induction fuel with
  | zero => intro exclude _; simp [writeLoop]
  | succ fuel ih =>
    intro exclude hcond
    obtain ⟨hlen, hall⟩ := hcond
    rcases writeLoop_succ_shape env cl vol req exclude fuel with
      ⟨e, hs, heq⟩ | ⟨dp, key, hs, hkey, heq⟩ | ⟨dp, hs, heq⟩
    · exfalso
      rw [heq] at hall
      have := (hall ⟨exclude, Except.error e, true⟩ (by simp)).2
      simp [exceptOk] at this
    · exfalso
      rw [heq] at hall
      have := (hall ⟨exclude, Except.ok dp, false⟩ (by simp)).1
      exact Bool.noConfusion this
    · rw [heq] at hlen hall ⊢
      simp only [List.length_cons, Nat.add_right_cancel_iff] at hlen
      exact ih (exclude ++ [dp.PartitionID])
        ⟨hlen, fun r hr => hall r (List.mem_cons_of_mem _ hr)⟩

theorem writeLoop_ok_key (env : NetEnv) (cl vol : GoStr) (req : Packet) :
    ∀ fuel exclude key, (writeLoop env cl vol req exclude fuel).1 = Except.ok key →
      ∃ p f o s, key = GenKey cl vol p f o s := by
  intro fuel
  induction fuel with
  | zero => intro exclude key h; simp [writeLoop] at h
  | succ fuel ih =>
    intro exclude key h
    rcases writeLoop_succ_shape env cl vol req exclude fuel with
      ⟨e, hs, heq⟩ | ⟨dp, key', hs, hkey, heq⟩ | ⟨dp, hs, heq⟩
    · rw [heq] at h
      exact absurd h (by simp)
    · rw [heq] at h
      simp only at h
      rcases hkey with ⟨p, f, o, s, hk⟩
      exact ⟨p, f, o, s, (Except.ok.inj h) ▸ hk⟩
    · rw [heq] at h
      exact ih _ key h

/-- C4: during a single Write call, the partition id of every failed attempt
is added to the exclusion set passed to every subsequent scheduler request
(so a scheduler that honours the exclusion list never returns a previously
failed partition again within that call), at most MaxRetryCnt = 100 attempts
are made, and exhausting all attempts returns the I/O error EIO. -/
theorem write_retry_exclusion (client : BlobClient) (env : NetEnv) (reqID : Int)
    (data : List Nat) :
    MaxRetryCnt = 100
    ∧ (client.Write env reqID data).2.length ≤ MaxRetryCnt
    ∧ List.Pairwise (fun a b => ∀ dp, a.sched = Except.ok dp → a.failed = true →
        dp.PartitionID ∈ b.exclude) (client.Write env reqID data).2
    ∧ (((client.Write env reqID data).2.length = MaxRetryCnt
        ∧ ∀ r ∈ (client.Write env reqID data).2, r.failed = true ∧ exceptOk r.sched = true)
      → (client.Write env reqID data).1 = Except.error GoError.eio)
    ∧ ((∀ ex dp, env.getWriteDataPartition ex = Except.ok dp → dp.PartitionID ∉ ex) →
        List.Pairwise (fun a b => ∀ dp dp', a.sched = Except.ok dp → a.failed = true →
          b.sched = Except.ok dp' → dp'.PartitionID ≠ dp.PartitionID)
          (client.Write env reqID data).2) := by
  refine ⟨rfl, ?_, ?_, ?_, ?_⟩
  · exact writeLoop_trace_length env client.cluster client.volname
      (NewBlobWritePacket none reqID data) MaxRetryCnt []
  · exact writeLoop_pairwise env client.cluster client.volname
      (NewBlobWritePacket none reqID data) MaxRetryCnt []
  · exact writeLoop_exhaust env client.cluster client.volname
      (NewBlobWritePacket none reqID data) MaxRetryCnt []
  · intro hresp
    have hp := writeLoop_pairwise env client.cluster client.volname
      (NewBlobWritePacket none reqID data) MaxRetryCnt []
    refine hp.imp_of_mem ?_
    intro a b ha hb hab dp dp' hadp hafail hbdp'
    have hbs := writeLoop_sched_eq env client.cluster client.volname
      (NewBlobWritePacket none reqID data) MaxRetryCnt [] b hb
    rw [hbdp'] at hbs
    have hnot : dp'.PartitionID ∉ b.exclude := hresp _ _ hbs.symm
    have hin : dp.PartitionID ∈ b.exclude := hab dp hadp hafail
    intro heqpid
    exact hnot (heqpid ▸ hin)

/-- Witness for C4: against a scheduler that always offers partition 7 while
every send fails, all 100 attempts fail and Write returns EIO; against a
scheduler honouring the exclusion list, no chosen partition repeats a failed
one. -/
theorem write_retry_exclusion_witness :
    ((NewBlobClient ['v']).Write envWA 9 [5]).1 = Except.error GoError.eio
    ∧ List.Pairwise (fun a b => ∀ dp dp', a.sched = Except.ok dp → a.failed = true →
        b.sched = Except.ok dp' → dp'.PartitionID ≠ dp.PartitionID)
        ((NewBlobClient ['v']).Write envWB 9 [5]).2 :=
  ⟨(write_retry_exclusion (NewBlobClient ['v']) envWA 9 [5]).2.2.2.1 (by decide),
   (write_retry_exclusion (NewBlobClient ['v']) envWB 9 [5]).2.2.2.2 (by
      intro ex dp h
      by_cases h7 : (7 : Nat) ∈ ex
      · simp [envWB, h7] at h
      · simp only [envWB, if_neg h7] at h
        rw [← Except.ok.inj h]
        exact h7)⟩

/-- C3: the write request packet is built once, before the retry loop, from
the still-nil partition pointer, so it is not built for the partition the
scheduler chooses in an attempt: its partition id is the zero value 0 while
every scheduler answer in this run is partition 7, and against a server that
faithfully echoes the true partition id every attempt fails response
validation, so the Write exhausts its budget and returns EIO. -/
theorem writePacket_staleness :
    (NewBlobWritePacket none 9 [5]).PartitionID = 0
    ∧ (∀ r ∈ ((NewBlobClient ['v']).Write envC3 9 [5]).2,
        r.sched = Except.ok { PartitionID := 7, Hosts := [['h']] })
    ∧ ((NewBlobClient ['v']).Write envC3 9 [5]).1 = Except.error GoError.eio := by
  exact ⟨rfl, by decide, by decide⟩

/-- C7: the non-OK-opcode path of Delete returns without releasing the
acquired connection: against a target whose delete reply carries a
non-success opcode, the event trace contains the acquisition of connection 1
and no Put at all — the connection is leaked. -/
theorem delete_connection_leak :
    ((NewBlobClient ['v']).Delete envD 9 keyD).2 = [ConnEvent.got 1]
    ∧ (∀ c b, ConnEvent.put c b ∉ ((NewBlobClient ['v']).Delete envD 9 keyD).2)
    ∧ ((NewBlobClient ['v']).Delete envD 9 keyD).1 = some (GoError.errorf "replyOp Err") := by
  refine ⟨by decide, ?_, by decide⟩
  intro c b hm
  rw [show ((NewBlobClient ['v']).Delete envD 9 keyD).2 = [ConnEvent.got 1] from by decide] at hm
  simp at hm

/-- C10: NewBlobClient never initialises the cluster identity, which stays
the empty string; every key a successful Write returns embeds that empty
cluster component, and Read and Delete reject (with EINVAL) any key whose
decoded cluster is nonempty. -/
theorem client_cluster_empty (v : GoStr) :
    (NewBlobClient v).cluster = []
    ∧ (∀ env reqID data key, ((NewBlobClient v).Write env reqID data).1 = Except.ok key →
        ∃ p f o s, key = GenKey [] v p f o s)
    ∧ (∀ env reqID key c v' p f o s,
        ParseKey key = Except.ok (c, v', p, f, o, s) → c ≠ [] →
        (NewBlobClient v).Read env reqID key = Except.error GoError.einval)
    ∧ (∀ env reqID key c v' p f o s,
        ParseKey key = Except.ok (c, v', p, f, o, s) → c ≠ [] →
        ((NewBlobClient v).Delete env reqID key).1 = some GoError.einval) := by
  refine ⟨rfl, ?_, ?_, ?_⟩
  · intro env reqID data key h
    exact writeLoop_ok_key env [] v (NewBlobWritePacket none reqID data) MaxRetryCnt [] key h
  · intro env reqID key c v' p f o s hk hc
    unfold BlobClient.Read
    rw [hk]
    simp [NewBlobClient, hc]
  · intro env reqID key c v' p f o s hk hc
    unfold BlobClient.Delete
    rw [hk]
    simp [NewBlobClient, hc]

/-- Witness for C10: a successful Write against an echoing server returns the
key of the empty cluster, and a key with cluster "c" is rejected by Read and
Delete. -/
theorem client_cluster_empty_witness :
    (∃ p f o s, GenKey [] ['v'] 0 5 6 3 = GenKey [] ['v'] p f o s)
    ∧ (NewBlobClient ['v']).Read envNF 9 keyC10 = Except.error GoError.einval
    ∧ ((NewBlobClient ['v']).Delete envNF 9 keyC10).1 = some GoError.einval :=
  ⟨(client_cluster_empty ['v']).2.1 envC10w 9 [1, 2, 3] (GenKey [] ['v'] 0 5 6 3) (by decide),
   (client_cluster_empty ['v']).2.2.1 envNF 9 keyC10 ['c'] ['v'] 1 2 3 4 (by decide) (by decide),
   (client_cluster_empty ['v']).2.2.2 envNF 9 keyC10 ['c'] ['v'] 1 2 3 4 (by decide) (by decide)⟩
